import Mathlib

/-!
Shallow embedding of `src/main.py` (a douban Top-250 scraper) together with
proofs of the specification claims.  Pure string manipulation is modelled by
Lean functions over `String`; HTML item blocks are modelled as records of the
text fields the code reads; the CSV file is a list of rows; the network is an
oracle `Nat → Option Page`; Python exceptions become `Option`.
-/

namespace Douban

/-- Python `str.strip()` with no argument on a character list: drop leading
and trailing whitespace (for the ASCII whitespace occurring here:
space, tab, CR, LF). -/
def stripChars (cs : List Char) : List Char :=
  ((cs.dropWhile Char.isWhitespace).reverse.dropWhile Char.isWhitespace).reverse

/-- Python `s.strip()`. -/
def pyStrip (s : String) : String :=
  String.mk (stripChars s.data)

/-- Python `s[:n]` on a string: the first `n` code points. -/
def pySlice (s : String) (n : Nat) : String :=
  String.mk (s.data.take n)

/-- Model of Python `str.splitlines` restricted to the line breaks
relevant here: a line ends at a bare LF, a bare CR or a CRLF pair, and a
trailing line break does not produce a final empty line. -/
def splitlinesGo : List Char → List Char → List String
  | [], cur => [String.mk cur.reverse]
  | '\r' :: '\n' :: rest, cur =>
      String.mk cur.reverse :: (if rest.isEmpty then [] else splitlinesGo rest [])
  | '\n' :: rest, cur =>
      String.mk cur.reverse :: (if rest.isEmpty then [] else splitlinesGo rest [])
  | '\r' :: rest, cur =>
      String.mk cur.reverse :: (if rest.isEmpty then [] else splitlinesGo rest [])
  | c :: rest, cur => splitlinesGo rest (c :: cur)

/-- Python `s.splitlines()`: the empty string yields no lines at all. -/
def pySplitlines (s : String) : List String :=
  match s.data with
  | [] => []
  | cs => splitlinesGo cs []

/-- Does `needle` occur as a prefix of `hay`? -/
def prefixMatch : List Char → List Char → Bool
  | [], _ => true
  | _ :: _, [] => false
  | c :: cs, d :: ds => c == d && prefixMatch cs ds

/-- Does `needle` occur as a contiguous run anywhere in `hay`? -/
def occursIn (needle : List Char) : List Char → Bool
  | [] => prefixMatch needle []
  | hay@(_ :: rest) => prefixMatch needle hay || occursIn needle rest

/-- Python `needle in s` substring containment test. -/
def strHasSub (s needle : String) : Bool :=
  occursIn needle.data s.data

/-- The nationality marker the filter looks for (`main.py` line 78). -/
def chineseMarker : String := "中国"

/-- One `<div class="item">` block, modelled by the text fields the code
reads out of it: the `bd > p` descriptive paragraph text, the
`hd > span.title` text, and the `pic > img` `alt`/`src` attributes. -/
structure ItemBlock where
  descText : String
  title : String
  imgAlt : String
  imgSrc : String
deriving DecidableEq, Repr

/-- A fetched page is, for our purposes, its list of item blocks. -/
abbrev Page := List ItemBlock

/-- `get_chinese_items` (`main.py` lines 66-80): keep exactly the item blocks
whose descriptive paragraph text contains the marker, in document order. -/
def get_chinese_items (soup : Page) : List ItemBlock :=
  soup.filter (fun item => strHasSub item.descText chineseMarker)

/-- The year expression of `main.py` line 95:
`get_text().strip().splitlines()[1].strip()[:4]`.  Fewer than two lines after
the initial strip raises `IndexError` in Python, hence `none`. -/
def year_from_text (t : String) : Option String :=
  match pySplitlines (pyStrip t) with
  | _ :: l2 :: _ => some (pySlice (pyStrip l2) 4)
  | _ => none

/-- One iteration of the `get_movie_infos` loop (`main.py` lines 94-96). -/
def movie_info (b : ItemBlock) : Option (String × String) :=
  match year_from_text b.descText with
  | some y => some (b.title, y)
  | none => none

/-- `get_movie_infos` (`main.py` lines 83-97); the first `IndexError`
aborts the whole call, as the Python loop would. -/
def get_movie_infos : List ItemBlock → Option (List (String × String))
  | [] => some []
  | b :: rest =>
    match movie_info b, get_movie_infos rest with
    | some info, some tl => some (info :: tl)
    | _, _ => none

/-- `get_movie_posters` (`main.py` lines 100-115): name from the image's
`alt` attribute, URL from its `src` attribute. -/
def get_movie_posters (items : List ItemBlock) : List (String × String) :=
  items.map (fun b => (b.imgAlt, b.imgSrc))

/-- The fixed CSV header row of `write_csv_header` (`main.py` line 122). -/
def header_row : List String := ["电影名称", "上映年份", "海报链接"]

/-- `write_csv_header` (`main.py` lines 118-122): truncate the file to just
the header row. -/
def write_csv_header : List (List String) := [header_row]

/-- The row written for one zipped pair (`main.py` lines 134-135): title and
year from the info tuple, URL from the poster tuple, poster title dropped. -/
def rowOf (p : (String × String) × (String × String)) : List String :=
  [p.1.1, p.1.2, p.2.2]

/-- `write_to_csv` (`main.py` lines 125-135): append one row per zipped pair
of the two lists to the existing file contents. -/
def write_to_csv (movie_infos movie_posters : List (String × String))
    (file : List (List String)) : List (List String) :=
  file ++ (movie_infos.zip movie_posters).map rowOf

/-- Accumulate a base-10 digit string; `none` on the first non-digit. -/
def digitsGo : List Char → Nat → Option Nat
  | [], acc => some acc
  | c :: cs, acc =>
    if c.isDigit then digitsGo cs (acc * 10 + (c.toNat - 48)) else none

/-- Python `int(s)` as used on the year column (`main.py` line 185), for
optionally signed digit strings with surrounding whitespace; anything else
raises `ValueError`, hence `none`. -/
def pyInt (s : String) : Option Int :=
  match (pyStrip s).data with
  | [] => none
  | '-' :: cs =>
    if cs.isEmpty then none else (digitsGo cs 0).map (fun n => -(n : Int))
  | '+' :: cs =>
    if cs.isEmpty then none else (digitsGo cs 0).map (fun n => (n : Int))
  | cs => (digitsGo cs 0).map (fun n => (n : Int))

/-- The read-back step of `analyze_data` (`main.py` lines 182-185): skip the
header row and parse column 1 of every remaining row as an integer; a missing
column or unparsable field raises in Python, hence `none`. -/
def analyze_years (file : List (List String)) : Option (List Int) :=
  (file.drop 1).mapM (fun row => (row.get? 1).bind pyInt)

/-- The distinct keys of `Counter(years)` in first-occurrence order
(`main.py` line 186). -/
def counter_keys : List Int → List Int
  | [] => []
  | y :: rest => y :: (counter_keys rest).filter (fun z => decide (z ≠ y))

/-- Comparison used by `sorted(counter.items(), key=lambda x: x[0])`. -/
abbrev keyLE (a b : Int × Nat) : Prop := a.1 ≤ b.1

instance : IsTotal (Int × Nat) keyLE := ⟨fun a b => Int.le_total a.1 b.1⟩

instance : IsTrans (Int × Nat) keyLE := ⟨fun _ _ _ => Int.le_trans⟩

/-- The histogram step of `analyze_data` (`main.py` lines 186-187):
`Counter(years)` then `sorted(counter.items(), key=lambda x: x[0])`. -/
def year_histogram (years : List Int) : List (Int × Nat) :=
  ((counter_keys years).map (fun y => (y, years.count y))).insertionSort keyLE

/-- `get_params` (`main.py` lines 23-34): the query parameters sent for a
page, here the single integer-valued `start` parameter. -/
def get_params (page : Nat) : List (String × Nat) :=
  [("start", page * 25)]

/-- The page indices the `main` loop drives (`main.py` line 213):
`range(10)`. -/
def main_pages : List Nat := List.range 10

/-- The error log line of `get_soup` (`main.py` line 62), which interpolates
the failing page number. -/
def fetchErrMsg (page : Nat) : String :=
  "请求失败 page=" ++ toString page

/-- The per-page completion log line of `handle_one_page`
(`main.py` line 168). -/
def pageDoneMsg (page count : Nat) : String :=
  "第" ++ toString (page + 1) ++ "页处理完成，共" ++ toString count ++ "部国产电影"

/-- Observable program state threaded through the page loop: the CSV file
contents, the saved poster images (`film_img` directory), the log (flag
`true` for ERROR lines, `false` for INFO lines), and the pages for which a
fetch request has been issued. -/
structure RunState where
  csv : List (List String)
  images : List (String × String)
  log : List (Bool × String)
  calls : List Nat
deriving DecidableEq, Repr

/-- `handle_one_page` (`main.py` lines 154-168) against a network oracle
`fetch` (`get_soup`: `none` models a logged, swallowed request failure).
A markup-shape failure inside `get_movie_infos` is an uncaught exception,
hence `none` for the whole run.  Poster downloads (`write_to_img`) are
modelled as always succeeding, since no claim depends on download failures:
each poster pair is recorded under `images`. -/
def handle_one_page (fetch : Nat → Option Page) (st : RunState) (page : Nat) :
    Option RunState :=
  let st := { st with calls := st.calls ++ [page] }
  match fetch page with
  | none => some { st with log := st.log ++ [(true, fetchErrMsg page)] }
  | some soup =>
    let chinese_items := get_chinese_items soup
    match get_movie_infos chinese_items with
    | none => none
    | some movie_infos =>
      let movie_posters := get_movie_posters chinese_items
      some { st with
        csv := write_to_csv movie_infos movie_posters st.csv,
        images := st.images ++ movie_posters,
        log := st.log ++ [(false, pageDoneMsg page chinese_items.length)] }

/-- The scraping part of `main` (`main.py` lines 212-215): write the header,
then handle pages 0..9 in order (the `random_sleep` calls have no observable
effect on this state). -/
def main_run (fetch : Nat → Option Page) : Option RunState :=
  main_pages.foldlM (handle_one_page fetch)
    { csv := write_csv_header, images := [], log := [], calls := [] }

/-- The CSV rows page `page` contributes under oracle `fetch` (empty when the
fetch fails; unspecified garbage rows never arise on runs that finish). -/
def pageRows (fetch : Nat → Option Page) (page : Nat) : List (List String) :=
  match fetch page with
  | none => []
  | some soup =>
    match get_movie_infos (get_chinese_items soup) with
    | none => []
    | some movie_infos =>
      (movie_infos.zip (get_movie_posters (get_chinese_items soup))).map rowOf

/-- The poster images page `page` contributes under oracle `fetch`. -/
def pageImages (fetch : Nat → Option Page) (page : Nat) : List (String × String) :=
  match fetch page with
  | none => []
  | some soup =>
    match get_movie_infos (get_chinese_items soup) with
    | none => []
    | some _ => get_movie_posters (get_chinese_items soup)

/-- The log line page `page` contributes under oracle `fetch`. -/
def pageLog (fetch : Nat → Option Page) (page : Nat) : Bool × String :=
  match fetch page with
  | none => (true, fetchErrMsg page)
  | some soup =>
    (false, pageDoneMsg page (get_chinese_items soup).length)

/-- A page on which `handle_one_page` does not raise: either its fetch fails
(and is swallowed) or every retained block has a well-shaped descriptive
paragraph. -/
def pageOk (fetch : Nat → Option Page) (page : Nat) : Prop :=
  fetch page = none ∨
    ∃ soup movie_infos, fetch page = some soup ∧
      get_movie_infos (get_chinese_items soup) = some movie_infos

/-- Year extraction as worded by the specification: split the raw descriptive
text on line breaks, take the second line, trim it, slice the first four
characters — with no initial trim of the whole text.
Modelled from the spec: stands next to `year_from_text` (the code) for the
refinement comparison of claim C1. -/
def year_from_text_specd (t : String) : Option String :=
  match pySplitlines t with
  | _ :: l2 :: _ => some (pySlice (pyStrip l2) 4)
  | _ => none

/-! Demonstration data used by the witnesses: one domestic block and one
non-domestic block, with well-shaped descriptive paragraphs. -/

/-- A domestic item block (descriptive text mentions the marker). -/
def blockA : ItemBlock :=
  { descText := "导演: 甲\n2001 / 中国大陆 / 剧情",
    title := "电影甲", imgAlt := "电影甲", imgSrc := "https://img/a.jpg" }

/-- A non-domestic item block. -/
def blockB : ItemBlock :=
  { descText := "导演: 乙\n2003 / 美国 / 动作",
    title := "电影乙", imgAlt := "电影乙", imgSrc := "https://img/b.jpg" }

/-! Helper lemmas. -/

/-- Pointwise description of a successful `get_movie_infos` run: the result
has one tuple per input block, in input order. -/
theorem get_movie_infos_pointwise :
    ∀ {items : List ItemBlock} {l : List (String × String)},
      get_movie_infos items = some l →
      l.length = items.length ∧ ∀ i : Nat, l[i]? = items[i]?.bind movie_info := by
  intro items
  induction items with
  | nil =>
    intro l h
    simp only [get_movie_infos, Option.some.injEq] at h
    subst h
    exact ⟨rfl, fun i => by cases i <;> rfl⟩
  | cons b rest ih =>
    intro l h
    simp only [get_movie_infos] at h
    cases hb : movie_info b with
    | none => rw [hb] at h; exact absurd h (by simp)
    | some info =>
      rw [hb] at h
      cases hr : get_movie_infos rest with
      | none => rw [hr] at h; exact absurd h (by simp)
      | some tl =>
        rw [hr] at h
        simp only [Option.some.injEq] at h
        subst h
        obtain ⟨hlen, hpt⟩ := ih hr
        refine ⟨by simpa using hlen, fun i => ?_⟩
        cases i with
        | zero => simpa using hb.symm
        | succ j => simpa using hpt j

/-! Claim C2. -/

/-- Claim C2: for every filtered list of item blocks on which
`get_movie_infos` returns (models: does not raise), both `get_movie_infos`
and `get_movie_posters` return exactly one tuple per input block, in input
order, so both result lengths equal the input length. -/
theorem extraction_lengths_match (items : List ItemBlock)
    (l : List (String × String)) (h : get_movie_infos items = some l) :
    l.length = items.length ∧
    (get_movie_posters items).length = items.length ∧
    (∀ i : Nat, l[i]? = items[i]?.bind movie_info) ∧
    (∀ i : Nat, (get_movie_posters items)[i]? =
      items[i]?.map (fun b => (b.imgAlt, b.imgSrc))) := by
  obtain ⟨hlen, hpt⟩ := get_movie_infos_pointwise h
  refine ⟨hlen, ?_, hpt, ?_⟩
  · simp [get_movie_posters]
  · intro i
    simp [get_movie_posters, List.getElem?_map]

/-- Witness for claim C2 at a concrete two-block list. -/
theorem extraction_lengths_match_witness :
    ([("电影甲", "2001"), ("电影乙", "2003")] : List (String × String)).length
        = [blockA, blockB].length ∧
    (get_movie_posters [blockA, blockB]).length = [blockA, blockB].length ∧
    (∀ i : Nat, ([("电影甲", "2001"), ("电影乙", "2003")] :
        List (String × String))[i]? = [blockA, blockB][i]?.bind movie_info) ∧
    (∀ i : Nat, (get_movie_posters [blockA, blockB])[i]? =
      [blockA, blockB][i]?.map (fun b => (b.imgAlt, b.imgSrc))) :=
  extraction_lengths_match [blockA, blockB]
    [("电影甲", "2001"), ("电影乙", "2003")] (by decide)

/-! Claim C1: the year the code extracts is a pure function of the
descriptive text, but the code trims the whole text before splitting it into
lines, so on a text with a leading line break the extracted year differs
from the first 4 characters of the trimmed second line of the raw text. -/

/-- Item block exhibiting the counterexample: a descriptive paragraph whose
raw text starts with a line break. -/
def cexBlock : ItemBlock :=
  { descText := "\n甲\n1994 / 中国大陆 / 剧情",
    title := "电影丙", imgAlt := "电影丙", imgSrc := "https://img/c.jpg" }

/-- Claim C1 counterexample: `get_movie_infos` extracts the year "1994" from
`cexBlock`, yet the first 4 characters of the trimmed second line of the
block's raw descriptive text are "甲" — the claim's slicing recipe, applied
to the text without the initial whole-text trim, disagrees with the code. -/
theorem year_slice_claim_cex :
    get_movie_infos [cexBlock] = some [("电影丙", "1994")] ∧
    pySlice (pyStrip ((pySplitlines cexBlock.descText).getD 1 "")) 4 = "甲" ∧
    ("1994" : String) ≠ "甲" := by
  decide

/-- Claim C1 (amended): the year string produced by `get_movie_infos` is a
pure function of the block's descriptive paragraph text, equal to the first
4 characters of the trimmed second line of the TRIMMED text: the text is
first trimmed as a whole, then split on line breaks, the second line taken,
trimmed, and its first 4 characters sliced. -/
theorem year_from_trimmed_second_line (items : List ItemBlock)
    (l : List (String × String)) (hl : get_movie_infos items = some l)
    (i : Nat) (b : ItemBlock) (hb : items[i]? = some b)
    (l1 l2 : String) (rest : List String)
    (hsplit : pySplitlines (pyStrip b.descText) = l1 :: l2 :: rest) :
    l[i]? = some (b.title, pySlice (pyStrip l2) 4) ∧
    ∀ b2 : ItemBlock, b2.descText = b.descText →
      (movie_info b2).map (fun p => p.2) = (movie_info b).map (fun p => p.2) := by
  constructor
  · have hpt := (get_movie_infos_pointwise hl).2 i
    rw [hb] at hpt
    rw [hpt]
    simp [movie_info, year_from_text, hsplit]
  · intro b2 hd
    simp only [movie_info, year_from_text, hd]
    cases pySplitlines (pyStrip b.descText) with
    | nil => rfl
    | cons x xs => cases xs <;> rfl

/-- Witness for the amended claim C1 at `blockA`. -/
theorem year_from_trimmed_second_line_witness :
    ([("电影甲", "2001")] : List (String × String))[0]? =
      some (blockA.title, pySlice (pyStrip "2001 / 中国大陆 / 剧情") 4) ∧
    ∀ b2 : ItemBlock, b2.descText = blockA.descText →
      (movie_info b2).map (fun p => p.2) =
        (movie_info blockA).map (fun p => p.2) :=
  year_from_trimmed_second_line [blockA] [("电影甲", "2001")] (by decide)
    0 blockA (by decide) "导演: 甲" "2001 / 中国大陆 / 剧情" [] (by decide)

/-! Claim C4. -/

/-- Claim C4: the filtered output contains no block whose descriptive text
lacks the marker, contains every block whose text has it, keeps blocks in
original document order (the output is a sublist of the input), and the
retention test depends on no field other than `descText`. -/
theorem filter_marker_spec (soup : Page) :
    (∀ b ∈ get_chinese_items soup, strHasSub b.descText chineseMarker = true) ∧
    (∀ b ∈ soup, strHasSub b.descText chineseMarker = true →
      b ∈ get_chinese_items soup) ∧
    (get_chinese_items soup).Sublist soup ∧
    (∀ b1 b2 : ItemBlock, b1.descText = b2.descText →
      strHasSub b1.descText chineseMarker = strHasSub b2.descText chineseMarker) := by
  refine ⟨?_, ?_, List.filter_sublist soup, ?_⟩
  · intro b hb
    exact (List.mem_filter.mp hb).2
  · intro b hb hm
    exact List.mem_filter.mpr ⟨hb, hm⟩
  · intro b1 b2 h
    rw [h]

/-- Witness for claim C4: the domestic block of the demo soup is retained. -/
theorem filter_marker_spec_witness :
    blockA ∈ get_chinese_items [blockA, blockB] :=
  (filter_marker_spec [blockA, blockB]).2.1 blockA (by decide) (by decide)

/-! Claim C9. -/

/-- Claim C9: the domestic filter is idempotent — filtering an
already-filtered list yields the same list again. -/
theorem filter_domestic_idem (soup : Page) :
    get_chinese_items (get_chinese_items soup) = get_chinese_items soup := by
  simp [get_chinese_items, List.filter_filter]

/-! Claim C8. -/

/-- Claim C8: for every page index driven by the main loop (0..9), the
`start` query parameter equals the page index multiplied by 25. -/
theorem start_offset_eq (page : Nat) (h : page ∈ main_pages) :
    (get_params page).lookup "start" = some (page * 25) ∧
    main_pages = List.range 10 :=
  ⟨by simp [get_params, List.lookup], rfl⟩

/-- Witness for claim C8 at page 7. -/
theorem start_offset_eq_witness :
    (get_params 7).lookup "start" = some (7 * 25) ∧
    main_pages = List.range 10 :=
  start_offset_eq 7 (by decide)

/-! Claims C3 and C10: rows appended by `write_to_csv`. -/

/-- Pointwise description of the rows built from zipping the two lists. -/
theorem zip_rows_pointwise :
    ∀ (movie_infos movie_posters : List (String × String)) (k : Nat),
      ((movie_infos.zip movie_posters).map rowOf)[k]? =
        match movie_infos[k]?, movie_posters[k]? with
        | some info, some poster => some [info.1, info.2, poster.2]
        | _, _ => none := by
  intro movie_infos
  induction movie_infos with
  | nil =>
    intro movie_posters k
    cases movie_posters <;> cases k <;> simp
  | cons info rest ih =>
    intro movie_posters k
    cases movie_posters with
    | nil => cases k <;> simp
    | cons poster ps =>
      cases k with
      | zero => simp [rowOf]
      | succ j => simpa using ih ps j

/-- Claim C3: for equal-length lists, `write_to_csv` appends exactly one row
per index, consisting of the name and year from the first list and the URL
from the second list (the second list's name component discarded). -/
theorem write_to_csv_pairs (movie_infos movie_posters : List (String × String))
    (file : List (List String))
    (h : movie_infos.length = movie_posters.length) :
    (write_to_csv movie_infos movie_posters file).length =
      file.length + movie_infos.length ∧
    ∀ k : Nat, (write_to_csv movie_infos movie_posters file)[file.length + k]? =
      match movie_infos[k]?, movie_posters[k]? with
      | some info, some poster => some [info.1, info.2, poster.2]
      | _, _ => none := by
  constructor
  · simp [write_to_csv, List.length_zip, h]
  · intro k
    rw [write_to_csv, List.getElem?_append_right (by omega),
      Nat.add_sub_cancel_left]
    exact zip_rows_pointwise movie_infos movie_posters k

/-- Witness for claim C3 at two one-element lists over a one-row file. -/
theorem write_to_csv_pairs_witness :
    (write_to_csv [("甲", "2001")] [("甲", "https://img/a.jpg")]
        [header_row]).length = [header_row].length + 1 ∧
    ∀ k : Nat, (write_to_csv [("甲", "2001")] [("甲", "https://img/a.jpg")]
        [header_row])[[header_row].length + k]? =
      match ([("甲", "2001")] : List (String × String))[k]?,
          ([("甲", "https://img/a.jpg")] : List (String × String))[k]? with
      | some info, some poster => some [info.1, info.2, poster.2]
      | _, _ => none := by
  have := write_to_csv_pairs [("甲", "2001")] [("甲", "https://img/a.jpg")]
    [header_row] (by decide)
  simpa using this

/-- Claim C10: on lists of different lengths, `write_to_csv` raises no error
(it is total) and appends exactly `min` of the two lengths many rows, the
trailing entries of the longer list silently dropped. -/
theorem write_to_csv_truncates
    (movie_infos movie_posters : List (String × String))
    (file : List (List String)) :
    (write_to_csv movie_infos movie_posters file).length =
      file.length + min movie_infos.length movie_posters.length ∧
    ∀ k : Nat, (write_to_csv movie_infos movie_posters file)[file.length + k]? =
      match movie_infos[k]?, movie_posters[k]? with
      | some info, some poster => some [info.1, info.2, poster.2]
      | _, _ => none := by
  constructor
  · simp [write_to_csv, List.length_zip]
  · intro k
    rw [write_to_csv, List.getElem?_append_right (by omega),
      Nat.add_sub_cancel_left]
    exact zip_rows_pointwise movie_infos movie_posters k

/-! Claim C6: CSV round-trip through the Analyzer's parse step. -/

/-- The header-then-append write path for a batch of
(title, year, poster URL) records: `write_csv_header` followed by
`write_to_csv` on the two positional projections the extractor produces. -/
def written_file (records : List (String × String × String)) :
    List (List String) :=
  write_to_csv (records.map (fun r => (r.1, r.2.1)))
    (records.map (fun r => (r.1, r.2.2))) write_csv_header

/-- Dropping the header of the written file leaves one 3-column row per
record, in order. -/
theorem written_file_drop (records : List (String × String × String)) :
    (written_file records).drop 1 =
      records.map (fun r => [r.1, r.2.1, r.2.2]) := by
  show (header_row :: (_ : List (List String))).drop 1 = _
  rw [List.drop_one, List.tail_cons, List.zip_map', List.map_map]
  rfl

/-- `mapM` over a mapped list, for the `Option` monad. -/
theorem option_mapM_map {α β γ : Type} (g : α → β) (f : β → Option γ)
    (l : List α) : (l.map g).mapM f = l.mapM (fun a => f (g a)) := by
  induction l with
  | nil => rfl
  | cons a l ih => rw [List.map_cons, List.mapM_cons, List.mapM_cons, ih]

/-- When every year field parses, `mapM` of the parser succeeds and returns
the parsed values pointwise. -/
theorem mapM_pyInt_eq (l : List (String × String × String))
    (h : ∀ r ∈ l, (pyInt r.2.1).isSome) :
    l.mapM (fun r => pyInt r.2.1) =
      some (l.map (fun r => (pyInt r.2.1).getD 0)) := by
  induction l with
  | nil => rfl
  | cons r l ih =>
    obtain ⟨v, hv⟩ := Option.isSome_iff_exists.mp (h r (by simp))
    rw [List.mapM_cons, hv, ih (fun x hx => h x (by simp [hx]))]
    simp [hv]

/-- The Analyzer's read-back of the written file is exactly the year parser
mapped over the records. -/
theorem analyze_written (records : List (String × String × String)) :
    analyze_years (written_file records) =
      records.mapM (fun r => pyInt r.2.1) := by
  rw [analyze_years, written_file_drop, option_mapM_map]
  rfl

/-- Claim C6: writing N records via the header-then-append path and reading
them back through the Analyzer's parse step (skip header, parse the year
column as integers) yields exactly N integer years matching the written
year strings; permuting the records permutes the years accordingly, so the
count is independent of write order. -/
theorem roundtrip_years (records : List (String × String × String))
    (h : ∀ r ∈ records, (pyInt r.2.1).isSome) :
    ∃ ys : List Int,
      analyze_years (written_file records) = some ys ∧
      ys.length = records.length ∧
      (∀ k : Nat, ∀ r, records[k]? = some r →
        ∃ y, ys[k]? = some y ∧ pyInt r.2.1 = some y) ∧
      (∀ records2, records2.Perm records →
        ∃ ys2, analyze_years (written_file records2) = some ys2 ∧
          ys2.Perm ys) := by
  refine ⟨records.map (fun r => (pyInt r.2.1).getD 0), ?_, by simp, ?_, ?_⟩
  · rw [analyze_written, mapM_pyInt_eq records h]
  · intro k r hk
    refine ⟨(pyInt r.2.1).getD 0, ?_, ?_⟩
    · rw [List.getElem?_map, hk]
      rfl
    · obtain ⟨v, hv⟩ :=
        Option.isSome_iff_exists.mp (h r (List.getElem?_mem hk))
      simp [hv]
  · intro records2 hperm
    refine ⟨records2.map (fun r => (pyInt r.2.1).getD 0), ?_, hperm.map _⟩
    rw [analyze_written,
      mapM_pyInt_eq records2 (fun x hx => h x (hperm.mem_iff.mp hx))]

/-- Witness for claim C6 at a concrete two-record batch. -/
theorem roundtrip_years_witness :
    ∃ ys : List Int,
      analyze_years (written_file
        [("电影甲", "2001", "https://img/a.jpg"),
         ("电影乙", "2003", "https://img/b.jpg")]) = some ys ∧
      ys.length = ([("电影甲", "2001", "https://img/a.jpg"),
         ("电影乙", "2003", "https://img/b.jpg")] :
           List (String × String × String)).length ∧
      (∀ k : Nat, ∀ r, ([("电影甲", "2001", "https://img/a.jpg"),
         ("电影乙", "2003", "https://img/b.jpg")] :
           List (String × String × String))[k]? = some r →
        ∃ y, ys[k]? = some y ∧ pyInt r.2.1 = some y) ∧
      (∀ records2, records2.Perm
          [("电影甲", "2001", "https://img/a.jpg"),
           ("电影乙", "2003", "https://img/b.jpg")] →
        ∃ ys2, analyze_years (written_file records2) = some ys2 ∧
          ys2.Perm ys) :=
  roundtrip_years
    [("电影甲", "2001", "https://img/a.jpg"),
     ("电影乙", "2003", "https://img/b.jpg")] (by decide)

/-! Claim C7: the Analyzer's histogram. -/

/-- Membership in the Counter key list is membership in the input. -/
theorem counter_keys_mem (l : List Int) (y : Int) :
    y ∈ counter_keys l ↔ y ∈ l := by
  induction l with
  | nil => simp [counter_keys]
  | cons x l ih =>
    by_cases hxy : y = x
    · subst hxy
      simp [counter_keys]
    · simp [counter_keys, hxy, List.mem_filter, ih]

/-- Claim C7: the histogram maps each distinct year to the number of records
with that year, is sorted ascending by year, and on input
`[2001, 2001, 2003]` equals `[(2001, 2), (2003, 1)]`. -/
theorem year_histogram_spec (years : List Int) :
    (∀ y : Int, ∀ c : Nat,
      (y, c) ∈ year_histogram years ↔ (y ∈ years ∧ c = years.count y)) ∧
    List.Sorted keyLE (year_histogram years) ∧
    year_histogram [2001, 2001, 2003] = [(2001, 2), (2003, 1)] := by
  refine ⟨?_, List.sorted_insertionSort keyLE _, by decide⟩
  intro y c
  rw [year_histogram, (List.perm_insertionSort keyLE _).mem_iff]
  constructor
  · intro hmem
    obtain ⟨y2, hy2, heq⟩ := List.mem_map.mp hmem
    rw [Prod.mk.injEq] at heq
    obtain ⟨h1, h2⟩ := heq
    rw [h1] at hy2 h2
    exact ⟨(counter_keys_mem years y).mp hy2, h2.symm⟩
  · rintro ⟨hy, hc⟩
    subst hc
    exact List.mem_map.mpr ⟨y, (counter_keys_mem years y).mpr hy, rfl⟩

/-! Claim C5: failure isolation in the page loop. -/

/-- A page whose fetch succeeds and whose blocks are well shaped contributes
its rows, images and INFO log line; a page whose fetch fails contributes
nothing but the ERROR log line naming it. -/
theorem handle_one_page_eq (fetch : Nat → Option Page) (st : RunState)
    (p : Nat) (hp : pageOk fetch p) :
    handle_one_page fetch st p = some
      { csv := st.csv ++ pageRows fetch p,
        images := st.images ++ pageImages fetch p,
        log := st.log ++ [pageLog fetch p],
        calls := st.calls ++ [p] } := by
  cases hf : fetch p with
  | none => simp [handle_one_page, hf, pageRows, pageImages, pageLog]
  | some soup =>
    rcases hp with hnone | ⟨soup2, movie_infos, hs, hi⟩
    · rw [hf] at hnone
      exact absurd hnone (by simp)
    · rw [hf] at hs
      injection hs with hs
      subst hs
      simp [handle_one_page, hf, hi, pageRows, pageImages, pageLog,
        write_to_csv]

/-- Running the loop over any list of pages (all of which either fail to
fetch or parse cleanly) succeeds and appends, per page in order, that
page's rows, images and log line, issuing exactly one fetch per page. -/
theorem foldl_pages (fetch : Nat → Option Page) :
    ∀ (ps : List Nat) (st : RunState), (∀ p ∈ ps, pageOk fetch p) →
      ∃ st2, ps.foldlM (handle_one_page fetch) st = some st2 ∧
        st2.csv = st.csv ++ ps.flatMap (pageRows fetch) ∧
        st2.images = st.images ++ ps.flatMap (pageImages fetch) ∧
        st2.log = st.log ++ ps.map (pageLog fetch) ∧
        st2.calls = st.calls ++ ps := by
  intro ps
  induction ps with
  | nil =>
    intro st h
    exact ⟨st, rfl, by simp, by simp, by simp, by simp⟩
  | cons p ps ih =>
    intro st h
    obtain ⟨st2, hrun, h1, h2, h3, h4⟩ :=
      ih { csv := st.csv ++ pageRows fetch p,
           images := st.images ++ pageImages fetch p,
           log := st.log ++ [pageLog fetch p],
           calls := st.calls ++ [p] } (fun q hq => h q (by simp [hq]))
    refine ⟨st2, ?_, ?_, ?_, ?_, ?_⟩
    · rw [List.foldlM_cons, handle_one_page_eq fetch st p (h p (by simp))]
      simpa using hrun
    · rw [h1]
      simp [List.flatMap_cons, List.append_assoc]
    · rw [h2]
      simp [List.flatMap_cons, List.append_assoc]
    · rw [h3]
      simp [List.map_cons, List.append_assoc]
    · rw [h4]
      simp [List.append_assoc]

/-- Claim C5: if the fetch of one page `k` of the 0..9 loop fails, the
failure is logged with the page number, that page contributes no CSV rows
and no images, the whole run still completes (no exception propagates),
every page — the others included — is fetched exactly once (so the failed
page is never retried), and every successfully fetched page's rows and
images are persisted via the per-page concatenation. -/
theorem fetch_failure_isolated (fetch : Nat → Option Page) (k : Nat)
    (hk : k < 10) (hfail : fetch k = none)
    (hok : ∀ p, p < 10 → pageOk fetch p) :
    ∃ st : RunState, main_run fetch = some st ∧
      st.calls = List.range 10 ∧
      st.calls.count k = 1 ∧
      pageRows fetch k = [] ∧
      pageImages fetch k = [] ∧
      pageLog fetch k = (true, fetchErrMsg k) ∧
      (true, fetchErrMsg k) ∈ st.log ∧
      st.csv = write_csv_header ++ (List.range 10).flatMap (pageRows fetch) ∧
      st.images = (List.range 10).flatMap (pageImages fetch) ∧
      st.log = (List.range 10).map (pageLog fetch) ∧
      (∀ j soup movie_infos, fetch j = some soup →
        get_movie_infos (get_chinese_items soup) = some movie_infos →
        pageRows fetch j =
          (movie_infos.zip (get_movie_posters (get_chinese_items soup))).map
            rowOf) := by
  obtain ⟨st, hrun, h1, h2, h3, h4⟩ :=
    foldl_pages fetch (List.range 10)
      { csv := write_csv_header, images := [], log := [], calls := [] }
      (fun p hp => hok p (List.mem_range.mp hp))
  have hcalls : st.calls = List.range 10 := by simpa using h4
  have hlog : st.log = (List.range 10).map (pageLog fetch) := by
    simpa using h3
  have hplk : pageLog fetch k = (true, fetchErrMsg k) := by
    simp [pageLog, hfail]
  refine ⟨st, by simpa [main_run, main_pages] using hrun, hcalls, ?_,
    by simp [pageRows, hfail], by simp [pageImages, hfail], hplk, ?_,
    by simpa using h1, by simpa using h2, hlog, ?_⟩
  · rw [hcalls]
    exact List.count_eq_one_of_mem (List.nodup_range 10)
      (List.mem_range.mpr hk)
  · rw [hlog]
    exact List.mem_map.mpr ⟨k, List.mem_range.mpr hk, hplk⟩
  · intro j soup movie_infos hs hi
    simp [pageRows, hs, hi]

/-- A two-block demo page for the claim C5 witness. -/
def demoSoup : Page := [blockA, blockB]

/-- A network oracle that fails on page 3 and serves `demoSoup` elsewhere. -/
def demoFetch : Nat → Option Page :=
  fun p => if p = 3 then none else some demoSoup

/-- Witness for claim C5: the oracle failing exactly on page 3. -/
theorem fetch_failure_isolated_witness :
    ∃ st : RunState, main_run demoFetch = some st ∧
      st.calls = List.range 10 ∧
      st.calls.count 3 = 1 ∧
      pageRows demoFetch 3 = [] ∧
      pageImages demoFetch 3 = [] ∧
      pageLog demoFetch 3 = (true, fetchErrMsg 3) ∧
      (true, fetchErrMsg 3) ∈ st.log ∧
      st.csv = write_csv_header ++
        (List.range 10).flatMap (pageRows demoFetch) ∧
      st.images = (List.range 10).flatMap (pageImages demoFetch) ∧
      st.log = (List.range 10).map (pageLog demoFetch) ∧
      (∀ j soup movie_infos, demoFetch j = some soup →
        get_movie_infos (get_chinese_items soup) = some movie_infos →
        pageRows demoFetch j =
          (movie_infos.zip (get_movie_posters (get_chinese_items soup))).map
            rowOf) :=
  fetch_failure_isolated demoFetch 3 (by decide) (by decide)
    (fun p hp => by
      by_cases h3 : p = 3
      · exact Or.inl (by simp [demoFetch, h3])
      · exact Or.inr ⟨demoSoup, [("电影甲", "2001")],
          by simp [demoFetch, h3], by decide⟩)

end Douban
